import Mathlib

/-!
Shallow embedding of the canary-bot mesh client (`mesh/client.go`) together
with the data-layer operations it uses (pinned by the data package tests).
Remote effects (dial outcomes, RPC outcomes, clock reads) are passed in
explicitly as environment parameters; network activity is recorded as an
explicit event trace.
-/

namespace CanaryBot

/-- Modelled from the spec: `helper.Hash` (the helper package is not in src/).
§4.1 requires a stable 32-bit hash of a string with no randomized seed; it is
modelled as a multiplicative accumulator over the codepoints, reduced mod 2^32. -/
def Hash (s : String) : Nat :=
  s.data.foldl (fun h c => ((h + c.toNat) * 16777619) % 4294967296) 2166136261

/-- Wire-level node (`meshv1.Node`): carries only name and target (§3). -/
structure MeshNode where
  name : String
  target : String
deriving DecidableEq, Repr

/-- `GetId` as pinned by `Test_GetId` of the data tests: the id is the hash of
the `target` field alone, never of the name. -/
def GetId (n : MeshNode) : Nat := Hash n.target

/-- `data.Node` record, per the data tests. -/
structure DataNode where
  id : Nat
  name : String
  target : String
  state : Nat
  stateChangeTs : Int
deriving DecidableEq, Repr

/-- Modelled from the spec: the `NODE_OK` health-state constant (the mesh
package constants are not in src/; only the value of the OK state matters). -/
def NODE_OK : Nat := 1

/-- `data.Convert` as pinned by `Test_Convert`: a wire node plus an explicitly
supplied state becomes a full record with id derived from the target and
`stateChangeTs` zero. -/
def Convert (n : MeshNode) (state : Nat) : DataNode :=
  { id := Hash n.target, name := n.name, target := n.target,
    state := state, stateChangeTs := 0 }

/-- `data.Sample` record. The Go code stores `value` as decimal text
(`strconv.FormatInt` of nanoseconds); it is modelled here as the encoded
integer itself. -/
structure Sample where
  from_ : String
  to_ : String
  key : Nat
  value : Int
  ts : Int
deriving DecidableEq, Repr

/-- `data.GetSampleId` as pinned by `Test_GetSampleId`: hash of
`from ++ to ++ decimal(key)`. -/
def GetSampleId (s : Sample) : Nat := Hash (s.from_ ++ s.to_ ++ toString s.key)

/-- The fields of `m.setupConfig` used by client.go. -/
structure SetupConfig where
  name : String
  joinAddress : String
  listenAddress : String
  listenPort : Int
deriving DecidableEq, Repr

/-- The wire response of the JoinMesh RPC (`meshv1.JoinMeshResponse`). -/
structure JoinMeshResponse where
  nameUnique : Bool
  myName : String
  nodes : List MeshNode
deriving DecidableEq, Repr

/-- A network action performed by the client: a dial attempt or a unary RPC. -/
inductive NetEvent
  | dial (target : String)
  | rpc (method : String) (target : String)
deriving DecidableEq, Repr

/-- `Mesh.initClient` (client.go lines 176-219): when no client is cached under
the node id, dial the target and cache the new client (a credential-loading
failure silently falls back to an insecure transport, absorbed here); a dial
attempt is recorded as a network event whether or not it succeeds. `dialOk`
gives the outcome of `grpc.Dial` per target. -/
def initClient (dialOk : String → Bool) (cache : List Nat) (toN : MeshNode) :
    Except Unit (List Nat) × List NetEvent :=
  if GetId toN ∈ cache then (.ok cache, [])
  else if dialOk toN.target then (.ok (GetId toN :: cache), [.dial toN.target])
  else (.error (), [.dial toN.target])

/-- The remote environment seen by `Mesh.Join`: per candidate target, whether
`initClient` succeeds and what the JoinMesh RPC returns (`none` = RPC error,
in which case the Go `res` variable is nil). -/
structure JoinEnv where
  initOk : String → Bool
  joinRpc : String → Option JoinMeshResponse

/-- Outcome of the candidate loop of `Mesh.Join` (client.go lines 52-95):
`earlyRet` models a `return` executed inside the loop, `success` models the
`break` with the response bound to `res` and the candidate target, and
`fellThrough` models the loop ending without any iteration (possible only for
an empty candidate list, leaving `res` nil). -/
inductive LoopRes
  | earlyRet (joined fatal : Bool)
  | success (res : JoinMeshResponse) (target : String)
  | fellThrough
deriving DecidableEq, Repr

/-- The candidate loop of `Mesh.Join`, also returning the list of candidates
actually attempted, in order. The Go code continues to the next candidate on a
connection or RPC failure unless the failing candidate is the last
(`index != len(targets)-1`), in which case it returns `(false, true)`; a
response with a non-unique name returns `(true, false)` at once. -/
def joinLoop (env : JoinEnv) : List String → LoopRes × List String
  | [] => (.fellThrough, [])
  | t :: rest =>
    if env.initOk t then
      match env.joinRpc t with
      | some res =>
        if res.nameUnique then (.success res t, [t])
        else (.earlyRet true false, [t])
      | none =>
        if rest.isEmpty then (.earlyRet false true, [t])
        else ((joinLoop env rest).1, t :: (joinLoop env rest).2)
    else
      if rest.isEmpty then (.earlyRet false true, [t])
      else ((joinLoop env rest).1, t :: (joinLoop env rest).2)

/-- The value `Mesh.Join` produces: either the `(joined, fatal)` pair of its
two `bool` results, or a runtime panic. -/
inductive JoinResult
  | ret (joined fatal : Bool)
  | panic
deriving DecidableEq, Repr

/-- Result record for `Mesh.Join`: the returned pair (or panic), the sequence
of `database.SetNode` upserts performed, and the candidates attempted. -/
structure JoinOut where
  result : JoinResult
  setNodes : List DataNode
  attempted : List String
deriving DecidableEq, Repr

/-- The local identity `Mesh.Join` sends and compares against:
`{Name: m.setupConfig.Name, Target: m.setupConfig.JoinAddress}`. -/
def selfMeshNode (cfg : SetupConfig) : MeshNode :=
  { name := cfg.name, target := cfg.joinAddress }

/-- `Mesh.Join` (client.go lines 46-105). After a `break` on a unique-name
response, the joined node (renamed to `res.MyName`) is stored with `NODE_OK`,
then every node of `res.Nodes` whose id differs from the local node's id is
stored with `NODE_OK`, and the final statement `return true, true` executes.
If the candidate loop never ran, `res` is still nil and `range res.Nodes`
dereferences a nil pointer: a panic. -/
def Join (cfg : SetupConfig) (env : JoinEnv) (targets : List String) : JoinOut :=
  match joinLoop env targets with
  | (.earlyRet j f, att) => { result := .ret j f, setNodes := [], attempted := att }
  | (.success res t, att) =>
    { result := .ret true true,
      setNodes :=
        Convert { name := res.myName, target := t } NODE_OK ::
          (res.nodes.filter fun n => GetId n != GetId (selfMeshNode cfg)).map
            (fun n => Convert n NODE_OK),
      attempted := att }
  | (.fellThrough, att) => { result := .panic, setNodes := [], attempted := att }

/-- Modelled from the spec: the State Store upsert `SetNode` (the data memdb
implementation is not in src/). §3 invariant: upsert by id — a record with the
same id is overwritten, otherwise the record is added. -/
def setNode (db : List DataNode) (n : DataNode) : List DataNode :=
  db.filter (fun d => d.id != n.id) ++ [n]

/-- A sequence of `SetNode` upserts applied to a store. -/
def applySetNodes (db : List DataNode) (calls : List DataNode) : List DataNode :=
  calls.foldl setNode db

/-- Modelled from the spec: the State Store upsert `SetSample` (data memdb not
in src/): upsert keyed by `GetSampleId` (§3 invariant for samples). -/
def setSample (db : List Sample) (s : Sample) : List Sample :=
  db.filter (fun d => GetSampleId d != GetSampleId s) ++ [s]

/-- A sequence of `SetSample` upserts applied to a store. -/
def applySetSamples (db : List Sample) (calls : List Sample) : List Sample :=
  calls.foldl setSample db

/-- Result record for `Mesh.pushSamples`: the returned error-or-nil, the
network events, and the client cache afterwards. -/
structure PushOut where
  result : Except Unit Unit
  events : List NetEvent
  cache : List Nat
deriving Repr

/-- `Mesh.pushSamples` (client.go lines 150-174). Note the order in the
source: `initClient` runs FIRST; the sample list is read afterwards, and the
empty-list short-circuit (`return nil`) happens only then. A non-empty list is
sent as one PushSamples RPC whose error, if any, is returned. -/
def pushSamples (dialOk : String → Bool) (pushRpcOk : String → Bool)
    (cache : List Nat) (dbSamples : List Sample) (node : MeshNode) : PushOut :=
  match initClient dialOk cache node with
  | (.error _, ev) => { result := .error (), events := ev, cache := cache }
  | (.ok cache2, ev) =>
    if dbSamples.isEmpty then { result := .ok (), events := ev, cache := cache2 }
    else if pushRpcOk node.target then
      { result := .ok (), events := ev ++ [.rpc "PushSamples" node.target], cache := cache2 }
    else
      { result := .error (), events := ev ++ [.rpc "PushSamples" node.target], cache := cache2 }

/-- The value `Mesh.closeClient` produces: the evicted cache on success, an
error, or a runtime panic. -/
inductive CloseRes
  | ok (cache : List Nat)
  | err
  | panic
deriving DecidableEq, Repr

/-- `Mesh.closeClient` (client.go lines 237-247). The source indexes
`m.clients[GetId(to)]` and immediately dereferences the result: a missing key
yields a nil `*MeshClient`, so `.conn.Close()` is a nil-pointer dereference —
a panic, modelled as `.panic`. When the client exists, a `Close` error is
returned without evicting; otherwise the entry is deleted. -/
def closeClient (closeOk : Bool) (cache : List Nat) (toN : MeshNode) : CloseRes :=
  if GetId toN ∈ cache then
    if closeOk then .ok (cache.filter fun i => i != GetId toN) else .err
  else .panic

/-- The request payload of the NodeDiscovery RPC
(`meshv1.NodeDiscoveryRequest`). -/
structure NodeDiscoveryRequest where
  newNode : MeshNode
  iAmNode : MeshNode
deriving DecidableEq, Repr

/-- Result record for `Mesh.NodeDiscovery`: network events, the request sent
(if any), and the error surfaced to the caller — the Go function has no return
values, so this is always `none`. -/
structure DiscOut where
  events : List NetEvent
  request : Option NodeDiscoveryRequest
  surfaced : Option Unit
deriving Repr

/-- `Mesh.NodeDiscovery` (client.go lines 128-148). On an `initClient`
failure the request is skipped (logged only); otherwise exactly one
NodeDiscovery RPC is sent carrying `{newNode, iAmNode}` where `iAmNode` is the
local listen address with the port appended; an RPC error (`rpcOk = false`) is
only logged — nothing reaches the caller in either case and nothing is
retried. -/
def NodeDiscovery (cfg : SetupConfig) (dialOk : String → Bool) (rpcOk : Bool)
    (cache : List Nat) (toNode newNode : MeshNode) : DiscOut :=
  match initClient dialOk cache toNode with
  | (.error _, ev) => { events := ev, request := none, surfaced := none }
  | (.ok _, ev) =>
    let iam : MeshNode :=
      { name := cfg.name,
        target := cfg.listenAddress ++ ":" ++ toString cfg.listenPort }
    { events := ev ++ [.rpc "NodeDiscovery" toNode.target],
      request := some { newNode := newNode, iAmNode := iam },
      surfaced := none }

/-- The sample-kind constants of the data package (modelled from the spec:
the data package constants are not in src/; the data tests use the values 1
and 2 for the two kinds). -/
def RTT_TOTAL : Nat := 1

/-- The request-only RTT sample kind; see `RTT_TOTAL`. -/
def RTT_REQUEST : Nat := 2

/-- Modelled from the spec: `data.SampleName` (data package not in src/), the
display name of a sample kind, used as a metric label. -/
def SampleName (k : Nat) : String :=
  if k = RTT_TOTAL then "rtt_total" else if k = RTT_REQUEST then "rtt_request" else ""

/-- One emission to the observation sink (`m.metrics.GetRtt().WithLabelValues
(kind, peer).Observe(seconds)`). The observed value (`duration.Seconds()`, a
float) is not modelled; only the emission and its labels are. -/
structure Observation where
  sampleKindName : String
  peerName : String
deriving DecidableEq, Repr

/-- Result record for `Mesh.Rtt`: network events, the `SetSample` calls in
order, and the observations emitted. -/
structure RttOut where
  events : List NetEvent
  samples : List Sample
  obs : List Observation
deriving DecidableEq, Repr

/-- `Mesh.Rtt` (client.go lines 249-340). `okNode` is the result of
`GetRandomNodeListByState(NODE_OK, 1)` (data memdb not in src/; modelled from
the spec: `none` when no node is in OK state, otherwise one OK node chosen at
random). The clock reads are passed in: `t0` = `rttStartH` (before the
blocking dial), `t1` = `rttStart` (connection ready), `t2` = `rttEnd` (reply
received), all in nanoseconds; `tsA`, `tsB` are the two `time.Now().Unix()`
reads used as sample timestamps. With no OK node the function returns before
any network activity; a dial or RPC failure returns after logging, writing
nothing; on success it observes both metrics and upserts the two samples
`(self, peer, RTT_TOTAL, t2-t0)` and `(self, peer, RTT_REQUEST, t2-t1)`. -/
def Rtt (cfg : SetupConfig) (okNode : Option DataNode) (dialOk rpcOk : Bool)
    (t0 t1 t2 tsA tsB : Int) : RttOut :=
  match okNode with
  | none => { events := [], samples := [], obs := [] }
  | some node =>
    if dialOk = false then
      { events := [.dial node.target], samples := [], obs := [] }
    else if rpcOk = false then
      { events := [.dial node.target, .rpc "Rtt" node.target], samples := [], obs := [] }
    else
      { events := [.dial node.target, .rpc "Rtt" node.target],
        samples :=
          [ { from_ := cfg.name, to_ := node.name, key := RTT_TOTAL, value := t2 - t0, ts := tsA },
            { from_ := cfg.name, to_ := node.name, key := RTT_REQUEST, value := t2 - t1, ts := tsB } ],
        obs :=
          [ { sampleKindName := SampleName RTT_TOTAL, peerName := node.name },
            { sampleKindName := SampleName RTT_REQUEST, peerName := node.name } ] }

/-- Whether a network event is a unary RPC (as opposed to a dial attempt). -/
def isRpcEvent : NetEvent → Bool
  | .rpc _ _ => true
  | .dial _ => false

/-- A concrete local configuration used to evaluate `Join` on concrete inputs. -/
def cfgC1 : SetupConfig :=
  { name := "me", joinAddress := "selfaddr", listenAddress := "", listenPort := 0 }

/-- A concrete JoinMesh response with a unique name and an empty node list. -/
def resC1 : JoinMeshResponse := { nameUnique := true, myName := "assigned", nodes := [] }

/-- An environment in which every candidate connects and answers `resC1`. -/
def envC1 : JoinEnv := { initOk := fun _ => true, joinRpc := fun _ => some resC1 }

/-- A concrete node whose target is "t". -/
def nodeC2 : MeshNode := { name := "n", target := "t" }

/-- A concrete node whose target has no cached client in the examples below. -/
def nodeC3 : MeshNode := { name := "n", target := "missing" }

/-- A concrete JoinMesh response reporting a name collision. -/
def resC4 : JoinMeshResponse := { nameUnique := false, myName := "", nodes := [] }

/-- An environment in which "bad1" fails to connect and only "good" answers,
with a name collision. -/
def envC4 : JoinEnv :=
  { initOk := fun t => t != "bad1",
    joinRpc := fun t => if t = "good" then some resC4 else none }

/-- An environment in which every dial fails. -/
def envC5 : JoinEnv := { initOk := fun _ => false, joinRpc := fun _ => none }

/-- A concrete local configuration whose join address is "selfaddr". -/
def cfgC6 : SetupConfig :=
  { name := "me", joinAddress := "selfaddr", listenAddress := "", listenPort := 0 }

/-- Response peer A. -/
def nodeA : MeshNode := { name := "A", target := "ta" }

/-- Response peer B. -/
def nodeB : MeshNode := { name := "B", target := "tb" }

/-- The record of the local node as it appears in a Join response. -/
def nodeSelfC6 : MeshNode := { name := "me", target := "selfaddr" }

/-- A unique-name JoinMesh response listing A, B and the local node. -/
def resC6 : JoinMeshResponse :=
  { nameUnique := true, myName := "me2", nodes := [nodeA, nodeB, nodeSelfC6] }

/-- An environment in which every candidate connects and answers `resC6`. -/
def envC6 : JoinEnv := { initOk := fun _ => true, joinRpc := fun _ => some resC6 }

/-- A concrete local configuration for the Rtt examples. -/
def cfgC7 : SetupConfig :=
  { name := "me", joinAddress := "selfaddr", listenAddress := "", listenPort := 0 }

/-- A concrete OK-state peer for the Rtt examples. -/
def nodeC7 : DataNode :=
  { id := Hash "tp", name := "peer", target := "tp", state := NODE_OK, stateChangeTs := 0 }

/-- One multiplicative hash step cannot send two accumulators differing by one
to the same residue: the difference of the products is the odd multiplier,
which 2^32 does not divide. -/
theorem hash_step_succ_ne (a : Nat) :
    ((a + 49) * 16777619) % 4294967296 ≠ ((a + 50) * 16777619) % 4294967296 := by
  intro h
  have hmod : Nat.ModEq 4294967296 ((a + 49) * 16777619) ((a + 50) * 16777619) := h
  have hdvd := (Nat.modEq_iff_dvd).mp hmod
  push_cast at hdvd
  have h2 : ((a : ℤ) + 50) * 16777619 - ((a : ℤ) + 49) * 16777619 = 16777619 := by ring
  rw [h2] at hdvd
  omega

/-- Appending the digit "1" and the digit "2" to the same string always yields
different hashes, so the two RTT sample kinds of one edge never collide. -/
theorem hash_append_digit_ne (s : String) : Hash (s ++ "1") ≠ Hash (s ++ "2") := by
  intro h
  have hd1 : (s ++ "1").data = s.data ++ ['1'] := rfl
  have hd2 : (s ++ "2").data = s.data ++ ['2'] := rfl
  rw [Hash, Hash, hd1, hd2, List.foldl_append, List.foldl_append] at h
  simp only [List.foldl_cons, List.foldl_nil] at h
  have e1 : ('1' : Char).toNat = 49 := rfl
  have e2 : ('2' : Char).toNat = 50 := rfl
  rw [e1, e2] at h
  generalize hX : s.data.foldl (fun h c => ((h + c.toNat) * 16777619) % 4294967296) 2166136261 = X at h
  exact hash_step_succ_ne X h

/-- A failing candidate that is not the last one: the loop moves on to the
rest, recording the attempt. -/
theorem joinLoop_cons_fail (env : JoinEnv) (t : String) (rest : List String)
    (hfail : env.initOk t = false ∨ (env.initOk t = true ∧ env.joinRpc t = none))
    (hne : rest ≠ []) :
    joinLoop env (t :: rest) = ((joinLoop env rest).1, t :: (joinLoop env rest).2) := by
  have hre : rest.isEmpty = false := by
    cases rest with
    | nil => exact absurd rfl hne
    | cons a l => rfl
  rcases hfail with h | ⟨h1, h2⟩
  · simp [joinLoop, h, hre]
  · simp [joinLoop, h1, h2, hre]

/-- A failing candidate that is the last one: the loop returns
`(joined=false, fatal=true)`. -/
theorem joinLoop_fail_last (env : JoinEnv) (t : String)
    (hfail : env.initOk t = false ∨ (env.initOk t = true ∧ env.joinRpc t = none)) :
    joinLoop env [t] = (LoopRes.earlyRet false true, [t]) := by
  rcases hfail with h | ⟨h1, h2⟩
  · simp [joinLoop, h]
  · simp [joinLoop, h1, h2]

/-- A candidate answering with a non-unique name: the loop returns
`(joined=true, fatal=false)` at once, whatever remains in the list. -/
theorem joinLoop_conflict (env : JoinEnv) (t : String) (rest : List String)
    (res : JoinMeshResponse) (h1 : env.initOk t = true)
    (h2 : env.joinRpc t = some res) (h3 : res.nameUnique = false) :
    joinLoop env (t :: rest) = (LoopRes.earlyRet true false, [t]) := by
  simp [joinLoop, h1, h2, h3]

/-- A candidate answering with a unique name: the loop breaks with the
response, whatever remains in the list. -/
theorem joinLoop_success (env : JoinEnv) (t : String) (rest : List String)
    (res : JoinMeshResponse) (h1 : env.initOk t = true)
    (h2 : env.joinRpc t = some res) (h3 : res.nameUnique = true) :
    joinLoop env (t :: rest) = (LoopRes.success res t, [t]) := by
  simp [joinLoop, h1, h2, h3]

/-- A Join failure is either a failed connection or a failed RPC; this splits
the disjunction into the form the step lemmas take. -/
theorem joinFail_cases (env : JoinEnv) (t : String)
    (h : env.initOk t = false ∨ env.joinRpc t = none) :
    env.initOk t = false ∨ (env.initOk t = true ∧ env.joinRpc t = none) := by
  rcases h with h | h
  · exact Or.inl h
  · cases hio : env.initOk t
    · exact Or.inl rfl
    · exact Or.inr ⟨rfl, h⟩

/-- The candidate loop skips over any prefix of failing candidates, attempting
each of them in order before reaching the rest. -/
theorem joinLoop_skip_failed (env : JoinEnv) (pre : List String) (rest : List String)
    (hpre : ∀ s ∈ pre, env.initOk s = false ∨ env.joinRpc s = none)
    (hne : rest ≠ []) :
    joinLoop env (pre ++ rest) = ((joinLoop env rest).1, pre ++ (joinLoop env rest).2) := by
  induction pre with
  | nil => simp
  | cons p ps ih =>
    have hp := joinFail_cases env p (hpre p (List.mem_cons_self p ps))
    have hne2 : ps ++ rest ≠ [] := by
      cases rest with
      | nil => exact absurd rfl hne
      | cons a l => simp
    rw [List.cons_append, joinLoop_cons_fail env p (ps ++ rest) hp hne2,
        ih (fun s hs => hpre s (List.mem_cons_of_mem p hs))]
    rfl

/-- When every candidate fails, the loop attempts all of them in order and
ends with `(joined=false, fatal=true)`. -/
theorem joinLoop_all_fail (env : JoinEnv) :
    ∀ targets : List String, targets ≠ [] →
    (∀ s ∈ targets, env.initOk s = false ∨ env.joinRpc s = none) →
    joinLoop env targets = (LoopRes.earlyRet false true, targets) := by
  intro targets
  induction targets with
  | nil => intro h _; exact absurd rfl h
  | cons t ts ih =>
    intro _ hall
    have ht := joinFail_cases env t (hall t (List.mem_cons_self t ts))
    cases ts with
    | nil => exact joinLoop_fail_last env t ht
    | cons t2 ts2 =>
      have hrec := ih (by simp) (fun s hs => hall s (List.mem_cons_of_mem t hs))
      rw [joinLoop_cons_fail env t (t2 :: ts2) ht (by simp), hrec]

/-- If the loop ended with `(false, true)`, then every candidate on the list
failed to connect or failed its RPC. -/
theorem joinLoop_fatal_all_failed (env : JoinEnv) :
    ∀ targets : List String,
    (joinLoop env targets).1 = LoopRes.earlyRet false true →
    ∀ s ∈ targets, env.initOk s = false ∨ env.joinRpc s = none := by
  intro targets
  induction targets with
  | nil => intro _ s hs; cases hs
  | cons t ts ih =>
    intro h s hs
    cases hio : env.initOk t with
    | false =>
      cases ts with
      | nil =>
        rcases List.mem_cons.mp hs with rfl | h2
        · exact Or.inl hio
        · cases h2
      | cons t2 ts2 =>
        rw [joinLoop_cons_fail env t (t2 :: ts2) (Or.inl hio) (by simp)] at h
        rcases List.mem_cons.mp hs with rfl | h2
        · exact Or.inl hio
        · exact ih h s h2
    | true =>
      rcases hr : env.joinRpc t with _ | res
      · cases ts with
        | nil =>
          rcases List.mem_cons.mp hs with rfl | h2
          · exact Or.inr hr
          · cases h2
        | cons t2 ts2 =>
          rw [joinLoop_cons_fail env t (t2 :: ts2) (Or.inr ⟨hio, hr⟩) (by simp)] at h
          rcases List.mem_cons.mp hs with rfl | h2
          · exact Or.inr hr
          · exact ih h s h2
      · cases hu : res.nameUnique with
        | false =>
          rw [joinLoop_conflict env t ts res hio hr hu] at h
          simp at h
        | true =>
          rw [joinLoop_success env t ts res hio hr hu] at h
          simp at h

/-- Every record of a store obtained by a sequence of upserts is either an
initial record or one of the upserted ones. -/
theorem mem_of_mem_applySetNodes :
    ∀ (calls : List DataNode) (db : List DataNode) (d : DataNode),
    d ∈ applySetNodes db calls → d ∈ db ∨ d ∈ calls := by
  intro calls
  induction calls with
  | nil => intro db d h; exact Or.inl h
  | cons c cs ih =>
    intro db d h
    rcases ih (setNode db c) d h with h2 | h2
    · rcases List.mem_append.mp h2 with h3 | h3
      · exact Or.inl (List.mem_of_mem_filter h3)
      · rw [List.mem_singleton] at h3
        rw [h3]
        exact Or.inr (List.mem_cons_self c cs)
    · exact Or.inr (List.mem_cons_of_mem c h2)

/-- An upsert never removes an id from the store. -/
theorem id_mem_setNode (db : List DataNode) (c : DataNode) (x : Nat)
    (h : ∃ d ∈ db, d.id = x) : ∃ d ∈ setNode db c, d.id = x := by
  obtain ⟨d, hd, hdx⟩ := h
  by_cases hid : d.id = c.id
  · refine ⟨c, List.mem_append_right _ (List.mem_singleton.mpr rfl), ?_⟩
    rw [← hid]
    exact hdx
  · refine ⟨d, List.mem_append_left _ ?_, hdx⟩
    refine List.mem_filter.mpr ⟨hd, ?_⟩
    simp only [bne_iff_ne]
    exact hid

/-- After a sequence of upserts, every id present initially or among the
upserted records is present in the store. -/
theorem id_mem_applySetNodes :
    ∀ (calls : List DataNode) (db : List DataNode) (x : Nat),
    ((∃ d ∈ db, d.id = x) ∨ (∃ c ∈ calls, c.id = x)) →
    ∃ d ∈ applySetNodes db calls, d.id = x := by
  intro calls
  induction calls with
  | nil =>
    intro db x h
    rcases h with h | ⟨c, hc, _⟩
    · exact h
    · cases hc
  | cons c cs ih =>
    intro db x h
    apply ih (setNode db c) x
    rcases h with h | ⟨e, he, hex⟩
    · exact Or.inl (id_mem_setNode db c x h)
    · rcases List.mem_cons.mp he with rfl | h2
      · exact Or.inl ⟨e, List.mem_append_right _ (List.mem_singleton.mpr rfl), hex⟩
      · exact Or.inr ⟨e, h2, hex⟩

/-- C1, counterexample: with a single candidate that connects and answers a
unique-name response, the candidate loop succeeds (nameUnique=true), yet
`Join` reports the pair `(joined=true, fatal=true)`, not `(true, false)` as
the claim states. -/
theorem join_unique_success_reports_fatal_cex :
    (joinLoop envC1 ["good"]).1 = LoopRes.success resC1 "good" ∧
    (Join cfgC1 envC1 ["good"]).result = JoinResult.ret true true ∧
    JoinResult.ret true true ≠ JoinResult.ret true false := by
  refine ⟨rfl, rfl, by decide⟩

/-- C1, amended: when `Join` succeeds on some candidate with nameUnique=true
it reports `(joined=true, fatal=true)` — the final `return true, true` of the
source — and the pair `(joined=false, fatal=true)` is returned only after
every candidate has been exhausted without a usable connection or response. -/
theorem join_return_pair_spec (cfg : SetupConfig) (env : JoinEnv) (targets : List String) :
    (∀ res t, (joinLoop env targets).1 = LoopRes.success res t →
      (Join cfg env targets).result = JoinResult.ret true true) ∧
    ((Join cfg env targets).result = JoinResult.ret false true →
      ∀ s ∈ targets, env.initOk s = false ∨ env.joinRpc s = none) := by
  constructor
  · intro res t h
    rcases he : joinLoop env targets with ⟨r, att⟩
    rw [he] at h
    simp only at h
    subst h
    simp [Join, he]
  · intro h s hs
    rcases he : joinLoop env targets with ⟨r, att⟩
    have hr : r = LoopRes.earlyRet false true := by
      cases r with
      | earlyRet j f =>
        simp only [Join, he] at h
        simp only [JoinResult.ret.injEq] at h
        obtain ⟨rfl, rfl⟩ := h
        rfl
      | success res t => simp [Join, he] at h
      | fellThrough => simp [Join, he] at h
    rw [hr] at he
    exact joinLoop_fatal_all_failed env targets (by rw [he]) s hs

/-- C1, witness for the amended claim at a concrete input. -/
theorem join_return_pair_spec_witness :
    (Join cfgC1 envC1 ["good"]).result = JoinResult.ret true true :=
  (join_return_pair_spec cfgC1 envC1 ["good"]).1 resC1 "good" rfl

/-- C2, counterexample: with an empty sample list and no cached client,
`pushSamples` still creates a connection — `initClient` runs before the
empty-list short-circuit — so one dial event occurs and a client is cached;
the claim of zero network calls and no created connection fails. -/
theorem pushSamples_empty_still_dials_cex :
    (pushSamples (fun _ => true) (fun _ => true) [] [] nodeC2).events = [NetEvent.dial "t"] ∧
    (pushSamples (fun _ => true) (fun _ => true) [] [] nodeC2).cache = [Hash "t"] ∧
    [NetEvent.dial "t"] ≠ ([] : List NetEvent) := by
  refine ⟨rfl, rfl, by decide⟩

/-- C2, amended: with an empty local sample list `pushSamples` never sends a
PushSamples RPC; it does run the connection step first, so with a cached
client it performs no network event and returns nil, with a successful dial
it performs exactly the dial and returns nil, and with a failed dial it
returns that error. -/
theorem pushSamples_empty_no_rpc (dialOk pushRpcOk : String → Bool)
    (cache : List Nat) (node : MeshNode) :
    (∀ e ∈ (pushSamples dialOk pushRpcOk cache [] node).events, e = NetEvent.dial node.target) ∧
    (GetId node ∈ cache →
      (pushSamples dialOk pushRpcOk cache [] node).events = [] ∧
      (pushSamples dialOk pushRpcOk cache [] node).result = Except.ok ()) ∧
    (dialOk node.target = true →
      (pushSamples dialOk pushRpcOk cache [] node).result = Except.ok ()) ∧
    (GetId node ∉ cache → dialOk node.target = false →
      (pushSamples dialOk pushRpcOk cache [] node).result = Except.error ()) := by
  by_cases hm : GetId node ∈ cache
  · simp [pushSamples, initClient, hm]
  · by_cases hd : dialOk node.target
    · simp [pushSamples, initClient, hm, hd]
    · simp [pushSamples, initClient, hm, hd]

/-- C2, witness for the amended claim: cached client, empty sample list —
no event and a nil result. -/
theorem pushSamples_empty_no_rpc_witness :
    (pushSamples (fun _ => false) (fun _ => false) [Hash "t"] [] nodeC2).events = [] ∧
    (pushSamples (fun _ => false) (fun _ => false) [Hash "t"] [] nodeC2).result = Except.ok () :=
  (pushSamples_empty_no_rpc (fun _ => false) (fun _ => false) [Hash "t"] nodeC2).2.1 (by decide)

/-- C3: `closeClient` on a node id with no cached connection does not return
an error — it panics (nil-pointer dereference of the missing map entry),
contradicting the claim and §7 of the spec. This theorem evaluates the code
at the failing input. -/
theorem closeClient_missing_client_panics :
    closeClient true [] nodeC3 = CloseRes.panic ∧
    closeClient false [] nodeC3 = CloseRes.panic := by
  refine ⟨by decide, by decide⟩

/-- C4: when a candidate answers with nameUnique=false after a prefix of
failing candidates, `Join` returns `(joined=true, fatal=false)` at once and
the attempted candidates are exactly the prefix plus that candidate — nothing
after it is tried, whatever `post` holds. -/
theorem join_name_conflict_stops_early (cfg : SetupConfig) (env : JoinEnv)
    (pre post : List String) (t : String) (res : JoinMeshResponse)
    (hpre : ∀ s ∈ pre, env.initOk s = false ∨ env.joinRpc s = none)
    (ht : env.initOk t = true) (hr : env.joinRpc t = some res)
    (hu : res.nameUnique = false) :
    (Join cfg env (pre ++ t :: post)).result = JoinResult.ret true false ∧
    (Join cfg env (pre ++ t :: post)).attempted = pre ++ [t] := by
  have hstep : joinLoop env (pre ++ t :: post) = (LoopRes.earlyRet true false, pre ++ [t]) := by
    rw [joinLoop_skip_failed env pre (t :: post) hpre (by simp),
        joinLoop_conflict env t post res ht hr hu]
  constructor
  · simp [Join, hstep]
  · simp [Join, hstep]

/-- C4, witness: "bad1" fails to connect, "good" answers with a name
collision, "after" is never attempted. -/
theorem join_name_conflict_stops_early_witness :
    (Join cfgC1 envC4 (["bad1"] ++ "good" :: ["after"])).result = JoinResult.ret true false ∧
    (Join cfgC1 envC4 (["bad1"] ++ "good" :: ["after"])).attempted = ["bad1"] ++ ["good"] :=
  join_name_conflict_stops_early cfgC1 envC4 ["bad1"] ["after"] "good" resC4
    (by decide) (by decide) (by decide) (by decide)

/-- C5: when every candidate of a non-empty list fails (connection or RPC),
`Join` attempts the candidates in order — all of them — and returns
`(joined=false, fatal=true)` after the last failure. -/
theorem join_all_candidates_fail_fatal (cfg : SetupConfig) (env : JoinEnv)
    (targets : List String) (hne : targets ≠ [])
    (hfail : ∀ s ∈ targets, env.initOk s = false ∨ env.joinRpc s = none) :
    (Join cfg env targets).result = JoinResult.ret false true ∧
    (Join cfg env targets).attempted = targets := by
  have hstep := joinLoop_all_fail env targets hne hfail
  constructor
  · simp [Join, hstep]
  · simp [Join, hstep]

/-- C5, witness: both dials fail. -/
theorem join_all_candidates_fail_fatal_witness :
    (Join cfgC1 envC5 ["bad1", "bad2"]).result = JoinResult.ret false true ∧
    (Join cfgC1 envC5 ["bad1", "bad2"]).attempted = ["bad1", "bad2"] :=
  join_all_candidates_fail_fatal cfgC1 envC5 ["bad1", "bad2"] (by decide)
    (fun s _ => Or.inl rfl)

/-- C6: when the candidate loop succeeds with a unique-name response, the
`SetNode` upserts are the joined peer followed by exactly the response nodes
whose id differs from the local node's id (id derived from the target
address), every upsert carries state `NODE_OK`, every non-self response node
ends up in the store with state OK, and — provided the joined candidate is
not the local address itself — no record with the local node's id is ever
stored. -/
theorem join_upserts_response_nodes_except_self
    (cfg : SetupConfig) (env : JoinEnv) (targets : List String)
    (res : JoinMeshResponse) (t : String)
    (hloop : (joinLoop env targets).1 = LoopRes.success res t)
    (hself : Hash t ≠ Hash cfg.joinAddress) :
    ((Join cfg env targets).setNodes =
      Convert { name := res.myName, target := t } NODE_OK ::
        (res.nodes.filter fun n => GetId n != GetId (selfMeshNode cfg)).map
          (fun n => Convert n NODE_OK)) ∧
    (∀ d ∈ (Join cfg env targets).setNodes, d.state = NODE_OK) ∧
    (∀ n ∈ res.nodes, GetId n ≠ GetId (selfMeshNode cfg) →
      ∃ d ∈ applySetNodes [] (Join cfg env targets).setNodes,
        d.id = GetId n ∧ d.state = NODE_OK) ∧
    (∀ d ∈ applySetNodes [] (Join cfg env targets).setNodes,
      d.id ≠ GetId (selfMeshNode cfg)) := by
  rcases he : joinLoop env targets with ⟨r, att⟩
  rw [he] at hloop
  simp only at hloop
  subst hloop
  have hJ : (Join cfg env targets).setNodes =
      Convert { name := res.myName, target := t } NODE_OK ::
        (res.nodes.filter fun n => GetId n != GetId (selfMeshNode cfg)).map
          (fun n => Convert n NODE_OK) := by
    simp [Join, he]
  have hstate : ∀ d ∈ (Join cfg env targets).setNodes, d.state = NODE_OK := by
    rw [hJ]
    intro d hd
    rcases List.mem_cons.mp hd with rfl | hd2
    · rfl
    · obtain ⟨n, _, rfl⟩ := List.mem_map.mp hd2
      rfl
  refine ⟨hJ, hstate, ?_, ?_⟩
  · intro n hn hne
    have hc : Convert n NODE_OK ∈ (Join cfg env targets).setNodes := by
      rw [hJ]
      refine List.mem_cons_of_mem _ (List.mem_map.mpr ⟨n, ?_, rfl⟩)
      refine List.mem_filter.mpr ⟨hn, ?_⟩
      simp only [bne_iff_ne]
      exact hne
    obtain ⟨d, hd, hdx⟩ :=
      id_mem_applySetNodes (Join cfg env targets).setNodes [] (GetId n)
        (Or.inr ⟨Convert n NODE_OK, hc, rfl⟩)
    refine ⟨d, hd, hdx, ?_⟩
    rcases mem_of_mem_applySetNodes (Join cfg env targets).setNodes [] d hd with h0 | h0
    · cases h0
    · exact hstate d h0
  · intro d hd
    rcases mem_of_mem_applySetNodes (Join cfg env targets).setNodes [] d hd with h0 | h0
    · cases h0
    · rw [hJ] at h0
      rcases List.mem_cons.mp h0 with rfl | h2
      · exact hself
      · obtain ⟨n, hnf, rfl⟩ := List.mem_map.mp h2
        have hb := (List.mem_filter.mp hnf).2
        simp only [bne_iff_ne] at hb
        exact hb

/-- C6, witness: response node list `[A, B, self]` — the upsert sequence is
the joined peer followed by `A` and `B` converted with state OK; `self` is
filtered out. -/
theorem join_upserts_response_nodes_except_self_witness :
    (Join cfgC6 envC6 ["good"]).setNodes =
      Convert { name := resC6.myName, target := "good" } NODE_OK ::
        (resC6.nodes.filter fun n => GetId n != GetId (selfMeshNode cfgC6)).map
          (fun n => Convert n NODE_OK) :=
  (join_upserts_response_nodes_except_self cfgC6 envC6 ["good"] resC6 "good"
    rfl (by decide)).1

/-- C7: a successful Rtt round with clock reads `t0 ≤ t1 ≤ t2` stores exactly
two samples for the same `(from, to)` pair — RTT_TOTAL valued `t2 - t0` and
RTT_REQUEST valued `t2 - t1` — the RTT_TOTAL value is at least the
RTT_REQUEST value, the two samples have different sample ids, and upserting
them into an empty store leaves exactly those two records. -/
theorem rtt_two_samples_ordered (cfg : SetupConfig) (node : DataNode)
    (t0 t1 t2 tsA tsB : Int) (h01 : t0 ≤ t1) (h12 : t1 ≤ t2) :
    ((Rtt cfg (some node) true true t0 t1 t2 tsA tsB).samples =
      [ { from_ := cfg.name, to_ := node.name, key := RTT_TOTAL, value := t2 - t0, ts := tsA },
        { from_ := cfg.name, to_ := node.name, key := RTT_REQUEST, value := t2 - t1, ts := tsB } ]) ∧
    t2 - t1 ≤ t2 - t0 ∧
    GetSampleId { from_ := cfg.name, to_ := node.name, key := RTT_TOTAL, value := t2 - t0, ts := tsA } ≠
      GetSampleId { from_ := cfg.name, to_ := node.name, key := RTT_REQUEST, value := t2 - t1, ts := tsB } ∧
    applySetSamples [] (Rtt cfg (some node) true true t0 t1 t2 tsA tsB).samples =
      [ { from_ := cfg.name, to_ := node.name, key := RTT_TOTAL, value := t2 - t0, ts := tsA },
        { from_ := cfg.name, to_ := node.name, key := RTT_REQUEST, value := t2 - t1, ts := tsB } ] := by
  have hne : GetSampleId { from_ := cfg.name, to_ := node.name, key := RTT_TOTAL, value := t2 - t0, ts := tsA } ≠
      GetSampleId { from_ := cfg.name, to_ := node.name, key := RTT_REQUEST, value := t2 - t1, ts := tsB } := by
    show Hash (cfg.name ++ node.name ++ toString RTT_TOTAL) ≠
      Hash (cfg.name ++ node.name ++ toString RTT_REQUEST)
    have k1 : toString RTT_TOTAL = "1" := rfl
    have k2 : toString RTT_REQUEST = "2" := rfl
    rw [k1, k2]
    exact hash_append_digit_ne (cfg.name ++ node.name)
  have hb : (GetSampleId { from_ := cfg.name, to_ := node.name, key := RTT_TOTAL, value := t2 - t0, ts := tsA } !=
      GetSampleId { from_ := cfg.name, to_ := node.name, key := RTT_REQUEST, value := t2 - t1, ts := tsB }) = true := by
    simp only [bne_iff_ne]
    exact hne
  refine ⟨rfl, by omega, hne, ?_⟩
  show setSample (setSample []
      { from_ := cfg.name, to_ := node.name, key := RTT_TOTAL, value := t2 - t0, ts := tsA })
      { from_ := cfg.name, to_ := node.name, key := RTT_REQUEST, value := t2 - t1, ts := tsB } = _
  simp [setSample, hb]

/-- C7, witness at concrete clock reads 10 ≤ 12 ≤ 20. -/
theorem rtt_two_samples_ordered_witness :
    ((Rtt cfgC7 (some nodeC7) true true 10 12 20 100 101).samples =
      [ { from_ := cfgC7.name, to_ := nodeC7.name, key := RTT_TOTAL, value := (20 : Int) - 10, ts := 100 },
        { from_ := cfgC7.name, to_ := nodeC7.name, key := RTT_REQUEST, value := (20 : Int) - 12, ts := 101 } ]) ∧
    (20 : Int) - 12 ≤ (20 : Int) - 10 := by
  have h := rtt_two_samples_ordered cfgC7 nodeC7 10 12 20 100 101 (by decide) (by decide)
  exact ⟨h.1, h.2.1⟩

/-- C8: with no node in OK state (`GetRandomNodeListByState` returns nil),
`Rtt` performs no network call, writes no sample and emits no observation. -/
theorem rtt_no_ok_node_no_effects (cfg : SetupConfig) (okNode : Option DataNode)
    (dialOk rpcOk : Bool) (t0 t1 t2 tsA tsB : Int) (h : okNode = none) :
    (Rtt cfg okNode dialOk rpcOk t0 t1 t2 tsA tsB).events = [] ∧
    (Rtt cfg okNode dialOk rpcOk t0 t1 t2 tsA tsB).samples = [] ∧
    (Rtt cfg okNode dialOk rpcOk t0 t1 t2 tsA tsB).obs = [] := by
  subst h
  exact ⟨rfl, rfl, rfl⟩

/-- C8, witness at a concrete configuration. -/
theorem rtt_no_ok_node_no_effects_witness :
    (Rtt cfgC7 none true true 0 0 0 0 0).events = [] ∧
    (Rtt cfgC7 none true true 0 0 0 0 0).samples = [] ∧
    (Rtt cfgC7 none true true 0 0 0 0 0).obs = [] :=
  rtt_no_ok_node_no_effects cfgC7 none true true 0 0 0 0 0 rfl

/-- C9: `NodeDiscovery` never surfaces an error to its caller — the Go
function has no error result, every connection or RPC failure is only
logged — and it performs at most one NodeDiscovery RPC (no retry), whatever
the environment does. -/
theorem nodeDiscovery_never_surfaces_error (cfg : SetupConfig)
    (dialOk : String → Bool) (rpcOk : Bool) (cache : List Nat)
    (toNode newNode : MeshNode) :
    (NodeDiscovery cfg dialOk rpcOk cache toNode newNode).surfaced = none ∧
    ((NodeDiscovery cfg dialOk rpcOk cache toNode newNode).events.filter isRpcEvent).length ≤ 1 := by
  by_cases hm : GetId toNode ∈ cache
  · simp [NodeDiscovery, initClient, hm, isRpcEvent]
  · by_cases hd : dialOk toNode.target
    · simp [NodeDiscovery, initClient, hm, hd, isRpcEvent]
    · simp [NodeDiscovery, initClient, hm, hd, isRpcEvent]

/-- C9, witness at a concrete environment. -/
theorem nodeDiscovery_never_surfaces_error_witness :
    (NodeDiscovery cfgC6 (fun _ => true) false [] nodeA nodeB).surfaced = none ∧
    ((NodeDiscovery cfgC6 (fun _ => true) false [] nodeA nodeB).events.filter isRpcEvent).length ≤ 1 :=
  nodeDiscovery_never_surfaces_error cfgC6 (fun _ => true) false [] nodeA nodeB

/-- C10: `Join` called with an empty candidate list skips the loop and panics
dereferencing the nil join response while ranging over its node list; it does
not return a `(joined, fatal)` pair. -/
theorem join_empty_targets_panics (cfg : SetupConfig) (env : JoinEnv) :
    (Join cfg env []).result = JoinResult.panic ∧
    ∀ j f : Bool, (Join cfg env []).result ≠ JoinResult.ret j f := by
  refine ⟨rfl, fun j f h => ?_⟩
  rw [show (Join cfg env []).result = JoinResult.panic from rfl] at h
  exact JoinResult.noConfusion h

/-- C10, witness at a concrete configuration and environment. -/
theorem join_empty_targets_panics_witness :
    (Join cfgC1 envC1 []).result = JoinResult.panic ∧
    ∀ j f : Bool, (Join cfgC1 envC1 []).result ≠ JoinResult.ret j f :=
  join_empty_targets_panics cfgC1 envC1

end CanaryBot
